import Mathlib

/-!
# Verification of the telegram-sub-bot core logic

Shallow embedding of `src/main.py` (a Telegram subscription-selling bot whose
persistent store is a Google spreadsheet).  Each spreadsheet worksheet is
modelled as a `List` of row structures whose fields correspond, in order, to
the worksheet's header in `SHEET_DEFINITIONS`; cell values written and read
back by the program are canonical (`str(int)` round-trips), so integer-valued
cells are modelled as `Nat`/`String` keys and money cells as `ℚ` (Python
floats).  ISO timestamps are modelled as `Nat` seconds where the program both
writes and parses them, and as the string image `isoOf t` where a timestamp
string is only stored.  Effectful calls (Telegram sends, task spawning) are
modelled as explicit state components; shell state that the program keeps in
process memory (`user_states`, spawned `asyncio` tasks) appears as function
arguments or as lists in the state record.
-/

namespace TelegramSubBot

/-- Fixed subscription term: `timedelta(days=180)` in seconds
(`activate_subscription`, main.py line 802). -/
def subDuration : Nat := 180 * 86400

/-- Image of `now_iso()` for a model time `t` (seconds).  The program writes
ISO strings; we only need that the map is injective, so the decimal image is
used. -/
def isoOf (t : Nat) : String := toString t

/-- Python `s.startswith(pre)` on the char list (kernel-computable model of
the byte-position implementation). -/
def pyStartsWith (s pre : String) : Bool := pre.data.isPrefixOf s.data

/-- Python `s.upper()` for the ASCII cells the program compares. -/
def pyToUpper (s : String) : String := ⟨s.data.map Char.toUpper⟩

/-- Python `s.lower()`. -/
def pyToLower (s : String) : String := ⟨s.data.map Char.toLower⟩

/-- Python `s.strip()`: drop whitespace from both ends. -/
def pyTrim (s : String) : String :=
  ⟨(((s.data.dropWhile Char.isWhitespace).reverse).dropWhile Char.isWhitespace).reverse⟩

/-- Left-to-right, non-overlapping split on a nonempty separator; the fuel
(first argument) is an upper bound on the scan steps, `length + 1` at the
call site. -/
def splitChars (sep : List Char) : Nat → List Char → List Char → List (List Char)
  | 0, s, acc => [acc.reverse ++ s]
  | Nat.succ fuel, s, acc =>
    match s with
    | [] => [acc.reverse]
    | c :: cs =>
      if sep.isPrefixOf (c :: cs) then
        acc.reverse :: splitChars sep fuel (List.drop (sep.length - 1) cs) []
      else splitChars sep fuel cs (c :: acc)

/-- Python `s.split(sep)` for a nonempty `sep`. -/
def pySplit (s sep : String) : List String :=
  (splitChars sep.data (s.data.length + 1) s.data []).map (fun l => ⟨l⟩)

/-- Left-to-right, non-overlapping replacement, fueled like `splitChars`. -/
def replaceChars (pat rep : List Char) : Nat → List Char → List Char
  | 0, s => s
  | Nat.succ fuel, s =>
    match s with
    | [] => []
    | c :: cs =>
      if pat.isPrefixOf (c :: cs) then
        rep ++ replaceChars pat rep fuel (List.drop (pat.length - 1) cs)
      else c :: replaceChars pat rep fuel cs

/-- Python `s.replace(pat, rep)` for the nonempty patterns the program uses
(`"gift_"`). -/
def pyReplace (s pat rep : String) : String :=
  if pat.data.isEmpty then s
  else ⟨replaceChars pat.data rep.data (s.data.length + 1) s.data⟩

/-- Decimal digit accumulation for `pyToNat?`. -/
def pyToNatCore : List Char → Nat → Option Nat
  | [], acc => some acc
  | c :: cs, acc =>
    if c.isDigit then pyToNatCore cs (acc * 10 + (c.toNat - 48)) else none

/-- Python `int(s)` for nonnegative decimal cells (`none` = `ValueError`). -/
def pyToNatOpt (s : String) : Option Nat :=
  match s.data with
  | [] => none
  | cs => pyToNatCore cs 0

/-- Python `int(s)` allowing a sign (`none` = `ValueError`). -/
def pyToIntOpt (s : String) : Option Int :=
  match s.data with
  | '-' :: cs =>
    (match cs with
     | [] => none
     | _ => (pyToNatCore cs 0).map (fun n => -(n : Int)))
  | [] => none
  | cs => (pyToNatCore cs 0).map (fun n => (n : Int))

/-- A row of the `Users` worksheet; fields follow `SHEET_DEFINITIONS["Users"]`:
telegram_id, username, full_name, email, referral_code, referred_by,
wallet_balance, status, created_at, last_seen, boost_data. -/
structure UserRow where
  telegram_id : String
  username : String
  full_name : String
  email : String
  referral_code : String
  referred_by : String
  wallet_balance : ℚ
  status : String
  created_at : Nat
  last_seen : Nat
  boost_data : String
deriving Repr, DecidableEq

/-- Update the first element of a list satisfying `p` by `f`; the Python
pattern `for idx, row in enumerate(rows[1:], start=2): if match: mutate;
update_row(...); break`. -/
def updateFirst (p : α → Bool) (f : α → α) : List α → List α
  | [] => []
  | x :: xs => if p x then f x :: xs else x :: updateFirst p f xs

/-- The cell mutation of `update_user_balance` (main.py lines 501-506): add
or subtract `amount` from column `wallet_balance` (index 6) and store
`max(0, current)`. -/
def creditUser (amount : ℚ) (add : Bool) (u : UserRow) : UserRow :=
  { u with wallet_balance := max 0 (if add then u.wallet_balance + amount else u.wallet_balance - amount) }

/-- `update_user_balance(telegram_id, amount, add)` (main.py lines 491-507):
find the user's row and apply `creditUser` to it. -/
def update_user_balance (users : List UserRow) (tid : String) (amount : ℚ)
    (add : Bool) : List UserRow :=
  updateFirst (fun u => u.telegram_id == tid) (creditUser amount add) users

/-- One credit/debit request against a wallet: target user, amount, and the
`add` flag of `update_user_balance`. -/
structure BalanceOp where
  tid : String
  amount : ℚ
  add : Bool
deriving Repr

/-- Apply a sequence of `update_user_balance` calls left to right. -/
def applyBalanceOps (users : List UserRow) : List BalanceOp → List UserRow
  | [] => users
  | op :: ops => applyBalanceOps (update_user_balance users op.tid op.amount op.add) ops

/-- The stored balance of a user, `0` if absent (`get_user_balance`). -/
def balanceOf (users : List UserRow) (tid : String) : ℚ :=
  match users.find? (fun u => u.telegram_id == tid) with
  | some u => u.wallet_balance
  | none => 0

/-- Environment configuration relevant to the modelled logic: NORMAL_PRICE,
PREMIUM_PRICE, NORMAL_CHANNEL_ID, PREMIUM_CHANNEL_ID. -/
structure Config where
  normalPrice : ℚ
  premiumPrice : ℚ
  normalChannel : String
  premiumChannel : String
deriving Repr, DecidableEq

/-- A row of the `Subscriptions` worksheet, after
`SHEET_DEFINITIONS["Subscriptions"]`.  The program writes `activated_at` and
`expires_at` as ISO strings and reads them back with `parse_iso`; the
round-trip is the identity on what it writes, so they are modelled as `Nat`
seconds. -/
structure SubRow where
  telegram_id : String
  username : String
  subscription_type : String
  status : String
  activated_at : Nat
  expires_at : Nat
  payment_method : String
deriving Repr, DecidableEq

/-- A row of the `Purchases` worksheet, after
`SHEET_DEFINITIONS["Purchases"]` (14 columns, with `admin_action` at index 8
and `status` at index 9).  `created_at`, `approved_at`, `approved_by` are kept
as raw strings because several handlers write them positionally against an
older 13-column layout, landing timestamps and admin ids in neighbouring
columns (see `callback_payment_method` and `callback_admin_purchase`). -/
structure PurchaseRow where
  purchase_id : String
  telegram_id : String
  username : String
  product : String
  amount_usd : ℚ
  amount_irr : ℚ
  payment_method : String
  transaction_id : String
  admin_action : String
  status : String
  created_at : String
  approved_at : String
  approved_by : String
  notes : String
deriving Repr, DecidableEq

/-- A row of the `Referrals` ledger, after `SHEET_DEFINITIONS["Referrals"]`. -/
structure ReferralRow where
  referrer_id : String
  referred_id : String
  level : Nat
  commission_usd : ℚ
  status : String
  purchase_id : String
  created_at : Nat
  paid_at : Nat
deriving Repr, DecidableEq

/-- A row of the `Withdrawals` worksheet, after
`SHEET_DEFINITIONS["Withdrawals"]`. -/
structure WithdrawalRow where
  withdrawal_id : String
  telegram_id : String
  amount_usd : ℚ
  method : String
  wallet_address : String
  card_number : String
  status : String
  requested_at : Nat
  processed_at : String
  processed_by : String
  notes : String
deriving Repr, DecidableEq

/-- A row of the `DiscountCodes` worksheet, after
`SHEET_DEFINITIONS["DiscountCodes"]`.  `valid_until` is `none` for an empty
cell (`parse_iso` returns `None`). -/
structure DiscountRow where
  code : String
  discount_percent : Int
  max_uses : Int
  used_count : Int
  valid_until : Option Nat
  created_by : String
  created_at : Nat
  status : String
deriving Repr, DecidableEq

/-- A row of the `GiftCards` worksheet, after
`SHEET_DEFINITIONS["GiftCards"]`.  `buyer_id` is written by
`create_gift_card` as `str(buyer_id)` of a Telegram integer id and read back
with `int(...)`, so it is a `Nat`; `recipient_id`/`redeemed_at` start as empty
cells (`none`). -/
structure GiftRow where
  gift_code : String
  product : String
  amount_usd : ℚ
  buyer_id : Nat
  buyer_username : String
  recipient_id : Option Nat
  recipient_username : String
  message : String
  status : String
  created_at : Nat
  redeemed_at : Option Nat
deriving Repr, DecidableEq

/-- An in-flight `schedule_expiry(telegram_id, channels, delay)` task created
by `asyncio.create_task`; `fire_at` is the wall-clock second at which the
sleep ends (creation time plus the computed delay). -/
structure ExpiryTimer where
  telegram_id : String
  channels : List String
  fire_at : Nat
deriving Repr, DecidableEq

/-- An in-flight `schedule_expiry_reminders(telegram_id, expires)` task. -/
structure ReminderTimer where
  telegram_id : String
  expires_at : Nat
deriving Repr, DecidableEq

/-- The process state the modelled operations touch: the spreadsheet tables
plus the process-local set of scheduled tasks. -/
structure BotState where
  users : List UserRow
  subs : List SubRow
  purchases : List PurchaseRow
  referrals : List ReferralRow
  withdrawals : List WithdrawalRow
  discounts : List DiscountRow
  gifts : List GiftRow
  expiryTimers : List ExpiryTimer
  reminderTimers : List ReminderTimer
deriving Repr, DecidableEq

/-- `channels = [PREMIUM_CHANNEL_ID, NORMAL_CHANNEL_ID] if product ==
"premium" else [NORMAL_CHANNEL_ID]` (main.py line 838). -/
def subsChannels (cfg : Config) (product : String) : List String :=
  if product == "premium" then [cfg.premiumChannel, cfg.normalChannel]
  else [cfg.normalChannel]

/-- The in-place overwrite of a matched `Subscriptions` row performed by
`activate_subscription` (main.py lines 808-819): columns 1-6 are rewritten,
`telegram_id` (column 0) is untouched. -/
def activateSubRow (now : Nat) (username product pm : String) (r : SubRow) : SubRow :=
  { r with username := username, subscription_type := product, status := "active",
           activated_at := now, expires_at := now + subDuration, payment_method := pm }

/-- `activate_subscription(telegram_id, username, product, payment_method)`
(main.py lines 799-857): overwrite the first `Subscriptions` row whose
`telegram_id` matches, else append a fresh one; `expires_at = now + 180 days`
independent of `product`; mark the `Users` row `active`; spawn a
`schedule_expiry` task and a `schedule_expiry_reminders` task.  No previously
scheduled task is looked up or cancelled. -/
def activate_subscription (cfg : Config) (now : Nat)
    (tid username product pm : String) (st : BotState) : BotState :=
  let subs' :=
    if st.subs.any (fun r => r.telegram_id == tid) then
      updateFirst (fun r => r.telegram_id == tid)
        (activateSubRow now username product pm) st.subs
    else
      st.subs ++ [⟨tid, username, product, "active", now, now + subDuration, pm⟩]
  let users' := updateFirst (fun u => u.telegram_id == tid)
      (fun u => { u with status := "active" }) st.users
  { st with subs := subs', users := users',
            expiryTimers := st.expiryTimers ++
              [⟨tid, subsChannels cfg product, now + subDuration⟩],
            reminderTimers := st.reminderTimers ++ [⟨tid, now + subDuration⟩] }

/-- The `Subscriptions` rows belonging to one user (the rows the scans
`str(row[0]) == str(telegram_id)` select). -/
def subsFor (tid : String) (subs : List SubRow) : List SubRow :=
  subs.filter (fun r => r.telegram_id == tid)

/-- An active boost, decoded from the `boost_data` profile cell. -/
structure Boost where
  code : String
  level1 : Int
  level2 : Int
deriving Repr, DecidableEq

/-- The `boost_data` decoding inside `get_user_boost` (main.py lines
1401-1409): the cell must start with `"boost:"` and split on `":"` into at
least 4 parts; `int(...)` failures are caught and yield `None`. -/
def parseBoost (boost_data : String) : Option Boost :=
  if pyStartsWith boost_data "boost:" then
    let parts := pySplit boost_data ":"
    if parts.length ≥ 4 then
      match (parts[2]?).bind pyToIntOpt, (parts[3]?).bind pyToIntOpt with
      | some l1, some l2 => some ⟨(parts[1]?).getD "", l1, l2⟩
      | _, _ => none
    else none
  else none

/-- `get_user_boost(telegram_id)` (main.py lines 1391-1415): find the user and
decode column 10. -/
def get_user_boost (users : List UserRow) (tid : String) : Option Boost :=
  match users.find? (fun u => u.telegram_id == tid) with
  | none => none
  | some u => parseBoost u.boost_data

/-- Level-1 commission rate (main.py lines 717-722): the referrer's boost
`level1` percentage if they have an active boost, else the default 8%. -/
def level1Rate (users : List UserRow) (tid : String) : ℚ :=
  match get_user_boost users tid with
  | some b => (b.level1 : ℚ) / 100
  | none => 8 / 100

/-- Level-2 commission rate (main.py lines 760-765): the level-2 referrer's
boost `level2` percentage if present, else the default 12%. -/
def level2Rate (users : List UserRow) (tid : String) : ℚ :=
  match get_user_boost users tid with
  | some b => (b.level2 : ℚ) / 100
  | none => 12 / 100

/-- `process_referral_commission(purchase_id, buyer_id, amount_usd)` (main.py
lines 703-793).  No-op if the buyer row is missing or `referred_by` is empty;
otherwise credit the level-1 referrer (boost-aware rate, default 8%) and
append a level-1 ledger row, then re-find the referrer and, if their own
`referred_by` is non-empty and differs from the buyer, credit the level-2
referrer (default 12%) and append a level-2 row.  Notifications are
best-effort sends, not modelled. -/
def process_referral_commission (pid buyer : String) (amount : ℚ) (now : Nat)
    (st : BotState) : BotState :=
  match st.users.find? (fun u => u.telegram_id == buyer) with
  | none => st
  | some buyerRow =>
    if buyerRow.referred_by == "" then st
    else
      let referrer := buyerRow.referred_by
      let c1 := amount * level1Rate st.users referrer
      let users1 := update_user_balance st.users referrer c1 true
      let refs1 := st.referrals ++ [⟨referrer, buyer, 1, c1, "paid", pid, now, now⟩]
      match users1.find? (fun u => u.telegram_id == referrer) with
      | none => { st with users := users1, referrals := refs1 }
      | some refRow =>
        if refRow.referred_by != "" && refRow.referred_by != buyer then
          let l2 := refRow.referred_by
          let c2 := amount * level2Rate users1 l2
          { st with users := update_user_balance users1 l2 c2 true,
                    referrals := refs1 ++ [⟨l2, buyer, 2, c2, "paid", pid, now, now⟩] }
        else { st with users := users1, referrals := refs1 }

/-- The Python substring test `sub in s` for a nonempty `sub`:
`s.splitOn sub` has at least two pieces exactly when `sub` occurs in `s`. -/
def containsSub (s sub : String) : Bool := (pySplit s sub).length ≥ 2

/-- `int(cell)` on the canonical decimal cells the program writes
(`str(telegram_id)` round-trips); empty or non-numeric text maps to 0, which
the callers treat as "no id" (`if not telegram_id: continue`). -/
def pyNat (s : String) : Nat := (pyToNatOpt s).getD 0

/-- Scan of `validate_discount_code` (main.py lines 1124-1164): the first row
whose code matches case-insensitively is checked — status must be `"active"`,
`valid_until` (when parseable) must not be past, and when `max_uses > 0` the
`used_count` must be below it; any failed check returns `None` immediately.
Returns `(discount_percent, sheet row index)`; data rows start at sheet
index 2. -/
def validateDiscountScan (now : Nat) (code : String) :
    List DiscountRow → Nat → Option (Int × Nat)
  | [], _ => none
  | r :: rs, idx =>
    if pyToUpper r.code == pyToUpper code then
      if r.status != "active" then none
      else if (match r.valid_until with | some vu => decide (vu < now) | none => false) then none
      else if r.max_uses > 0 && r.used_count ≥ r.max_uses then none
      else some (r.discount_percent, idx)
    else validateDiscountScan now code rs (idx + 1)

/-- `validate_discount_code(code)` over the `DiscountCodes` table. -/
def validate_discount_code (now : Nat) (rows : List DiscountRow) (code : String) :
    Option (Int × Nat) :=
  validateDiscountScan now code rows 2

/-- `use_discount_code(code)` (main.py lines 1167-1188): increment the first
matching row's `used_count` and return whether a row matched.  This function
is defined in the source but never invoked by any handler. -/
def use_discount_code (rows : List DiscountRow) (code : String) :
    Bool × List DiscountRow :=
  (rows.any (fun r => pyToUpper r.code == pyToUpper code),
   updateFirst (fun r => pyToUpper r.code == pyToUpper code)
     (fun r => { r with used_count := r.used_count + 1 }) rows)

/-- `callback_payment_method` (main.py lines 2189-2292): parse the product,
apply a stored discount code's percentage to the price for non-gift purchases
(only `validate_discount_code` is consulted; `use_discount_code` is never
called, so the `DiscountCodes` table is untouched), then append a `Purchases`
row.  The 13-value append is written against an older 13-column layout, so
against the declared 14-column header the value `"pending"` lands in the
`admin_action` column and the creation timestamp lands in the `status`
column.  `stateDiscount` is the `user_states[...]["discount_code"]` entry,
`usdtRate` the external price-feed result, `pidGen` the generated id. -/
def callback_payment_method (cfg : Config) (tid username : String)
    (method product : String) (stateDiscount : Option String) (pidGen : String)
    (usdtRate : ℚ) (now : Nat) (st : BotState) : BotState :=
  let is_gift := pyStartsWith product "gift_"
  let actual_product := pyReplace product "gift_" ""
  let price0 : ℚ :=
    if is_gift then (if actual_product == "normal" then cfg.normalPrice else cfg.premiumPrice)
    else (if product == "normal" then cfg.normalPrice else cfg.premiumPrice)
  let price : ℚ :=
    if is_gift then price0
    else
      match stateDiscount with
      | none => price0
      | some code =>
        match validate_discount_code now st.discounts code with
        | some (d, _) => price0 * (100 - (d : ℚ)) / 100
        | none => price0
  if method == "card" then
    { st with purchases := st.purchases ++
        [⟨pidGen, tid, username, product, price, price * usdtRate, "card", "",
          "pending", isoOf now, "", "", "", ""⟩] }
  else if method == "usdt" then
    { st with purchases := st.purchases ++
        [⟨pidGen, tid, username, product, price, 0, "usdt", "",
          "pending", isoOf now, "", "", "", ""⟩] }
  else st

/-- `append_row(sheet, row)` (main.py lines 223-232): the adapter makes
exactly one `ws.append_row` API call inside `try/except`; an exception is
caught, logged and returned as `False`.  `attempt k` is the outcome the
`k`-th API attempt would have; the adapter only ever consults `attempt 0` —
there is no retry loop. -/
def append_row (attempt : Nat → Bool) : Bool := attempt 0

/-- `update_row(sheet, index, row)` (main.py lines 243-254): same single-call
`try/except` shape as `append_row`, returning `False` on an exception. -/
def update_row (attempt : Nat → Bool) : Bool := attempt 0

/-- `get_all_rows(sheet)` (main.py lines 234-241): one `get_all_values` API
call inside `try/except`; an exception yields `[]`. -/
def get_all_rows (attempt : Nat → Option (List (List String))) : List (List String) :=
  (attempt 0).getD []

/-- `handle_withdrawal_request` (main.py lines 2762-2849): the message is
`"<amount> <destination>"`; `amountParse` is the `float(parts[0])` result
(`none` = missing part or parse failure), `balance` the snapshot stored in
`user_states` when the method was selected.  Rejected (state unchanged) when
the amount parses to less than the $10 minimum or exceeds the balance, or a
usdt destination is malformed; otherwise a `pending` `Withdrawals` row is
appended.  No balance is touched. -/
def handle_withdrawal_request (tid method : String) (balance : ℚ)
    (amountParse : Option ℚ) (destination : String) (widGen : String)
    (now : Nat) (st : BotState) : BotState :=
  match amountParse with
  | none => st
  | some amount =>
    if amount < 10 then st
    else if amount > balance then st
    else if method == "usdt" && !(pyStartsWith destination "0x" && destination.length ≥ 20) then st
    else if method == "card" then
      { st with withdrawals := st.withdrawals ++
          [⟨widGen, tid, amount, "card", "", destination, "pending", now, "", "", ""⟩] }
    else
      { st with withdrawals := st.withdrawals ++
          [⟨widGen, tid, amount, "usdt", destination, "", "pending", now, "", "", ""⟩] }

/-- `process_withdrawal_approval` (main.py lines 2890-2934): `widIdx` is the
sheet row number (the header is sheet row 1; data rows start at 2, so sheet
row `widIdx` is list entry `widIdx - 2`).  The guard
`withdrawal_idx >= len(rows)` compares against the row count including the
header, i.e. `st.withdrawals.length + 1`.  On success the row is marked
`completed` and the user's balance is debited via
`update_user_balance(..., add=False)`. -/
def completeWithdrawalRow (txid : String) (now : Nat) (row : WithdrawalRow) : WithdrawalRow :=
  { row with status := "completed", processed_at := isoOf now,
             processed_by := "admin", notes := "TXID: " ++ txid }

/-- See `process_withdrawal_approval` below. -/
def process_withdrawal_approval (uid : String) (amount : ℚ) (txid : String)
    (widIdx : Nat) (now : Nat) (st : BotState) : BotState :=
  if st.withdrawals.length + 1 ≤ widIdx then st
  else
    match st.withdrawals[widIdx - 2]? with
    | none => st
    | some row =>
      { st with
          withdrawals := st.withdrawals.set (widIdx - 2) (completeWithdrawalRow txid now row),
          users := update_user_balance st.users uid amount false }

/-- The field writes `redeem_gift_card` performs on the matched `GiftCards`
row (main.py lines 1255-1258). -/
def redeemUpdate (recipient_id : Nat) (recipient_username : String) (now : Nat)
    (g : GiftRow) : GiftRow :=
  { g with recipient_username := recipient_username, recipient_id := some recipient_id,
           status := "redeemed", redeemed_at := some now }

/-- `redeem_gift_card(gift_code, recipient_id, recipient_username)` (main.py
lines 1224-1286): the first matching card is refused (`None`, nothing
written) unless its status is `"pending"` and the recipient is not the
buyer; on success the row is marked redeemed and, when the recipient user
exists with an empty `referred_by`, the buyer becomes their referrer. -/
def redeem_gift_card (gift_code : String) (recipient_id : Nat)
    (recipient_username : String) (now : Nat) (st : BotState) :
    Option (String × String × String) × BotState :=
  match st.gifts.find? (fun g => g.gift_code == gift_code) with
  | none => (none, st)
  | some g =>
    if g.status != "pending" then (none, st)
    else if g.buyer_id == recipient_id then (none, st)
    else
      let gifts' := updateFirst (fun x => x.gift_code == gift_code)
        (redeemUpdate recipient_id recipient_username now) st.gifts
      let users' :=
        match st.users.find? (fun u => u.telegram_id == toString recipient_id) with
        | some ur =>
          if ur.referred_by == "" then
            updateFirst (fun u => u.telegram_id == toString recipient_id)
              (fun u => { u with referred_by := toString g.buyer_id }) st.users
          else st.users
        | none => st.users
      (some (g.product, g.message, g.buyer_username),
       { st with gifts := gifts', users := users' })

/-- `callback_admin_purchase` approve/reject (main.py lines 2516-2623): the
purchase row is located by `purchase_id`; no check of its current status or
notes is made.  The handler writes positions 8, 10 and 11 of the row, which
against the declared 14-column `Purchases` header are the `admin_action`,
`created_at` and `approved_at` columns (the literal `"approved"` or
`"rejected"` lands in `admin_action`, the timestamp in `created_at`, the
admin id in `approved_at`).  On approve it unconditionally runs
`activate_subscription` (with the raw product string, even a
`gift_`-prefixed one — there is no gift branch here) and
`process_referral_commission`. -/
def adminApproveWrite (adminId : String) (now : Nat) (r : PurchaseRow) : PurchaseRow :=
  { r with admin_action := "approved", created_at := isoOf now, approved_at := adminId }

/-- The reject-branch positional writes of `callback_admin_purchase`
(main.py lines 2594-2596): same three positions, literal `"rejected"`. -/
def adminRejectWrite (adminId : String) (now : Nat) (r : PurchaseRow) : PurchaseRow :=
  { r with admin_action := "rejected", created_at := isoOf now, approved_at := adminId }

/-- See the doc comment above `adminApproveWrite` for the column drift. -/
def callback_admin_purchase (cfg : Config) (action pid uid adminId : String)
    (now : Nat) (st : BotState) : BotState :=
  match st.purchases.find? (fun r => r.purchase_id == pid) with
  | none => st
  | some row =>
    if action == "approve" then
      let purchases' := updateFirst (fun r => r.purchase_id == pid)
        (adminApproveWrite adminId now) st.purchases
      let username :=
        match st.users.find? (fun u => u.telegram_id == uid) with
        | some u => u.username
        | none => ""
      let st₁ := { st with purchases := purchases' }
      let st₂ := activate_subscription cfg now uid username row.product row.payment_method st₁
      process_referral_commission pid uid row.amount_usd now st₂
    else
      { st with purchases :=
                  updateFirst (fun r => r.purchase_id == pid)
                    (adminRejectWrite adminId now) st.purchases }

/-- The column writes the reconciliation poller performs after approving a
row (main.py lines 4686-4692), located via `header.index`, so they land in
the right columns: clear `admin_action`, set `status`, `approved_at`,
`approved_by` and the `notes` marker `"auto_processed"`. -/
def markApproved (now : Nat) (r : PurchaseRow) : PurchaseRow :=
  { r with admin_action := "", status := "approved", approved_at := isoOf now,
           approved_by := "admin", notes := "auto_processed" }

/-- Same as `markApproved` for the reject branch (main.py lines 4710-4716). -/
def markRejected (now : Nat) (r : PurchaseRow) : PurchaseRow :=
  { r with admin_action := "", status := "rejected", approved_at := isoOf now,
           approved_by := "admin", notes := "auto_processed" }

/-- One purchase-row step of `poll_sheets_auto_process` (main.py lines
4591-4716): skip when the `admin_action` cell is empty or the lowercased
`notes` contain `"processed"`; otherwise, for `admin_action == "approve"`, a
`gift_` product mints a `GiftCards` row (no subscription activation) while
any other product runs `activate_subscription` and
`process_referral_commission`; either way the row is overwritten with the
`markApproved` columns.  `admin_action == "reject"` only marks the row.
`giftCode` stands for the generated `uuid` code and `giftMessage` for the
`user_states` gift message. -/
def poll_process_purchase_row (cfg : Config) (giftCode giftMessage : String)
    (now : Nat) (i : Nat) (st : BotState) : BotState :=
  match st.purchases[i]? with
  | none => st
  | some row =>
    let adminAction := pyToLower (pyTrim row.admin_action)
    let notes := pyToLower (pyTrim row.notes)
    if adminAction == "" || containsSub notes "processed" then st
    else if pyNat row.telegram_id == 0 then st
    else if adminAction == "approve" then
      if pyStartsWith row.product "gift_" then
        let actual := pyReplace row.product "gift_" ""
        let amount := if actual == "normal" then cfg.normalPrice else cfg.premiumPrice
        { st with
            gifts := st.gifts ++ [⟨giftCode, actual, amount, pyNat row.telegram_id,
              row.username, none, "", giftMessage, "pending", now, none⟩],
            purchases := st.purchases.set i (markApproved now row) }
      else
        let st₁ := activate_subscription cfg now row.telegram_id row.username
          row.product row.payment_method st
        let st₂ := process_referral_commission row.purchase_id row.telegram_id
          row.amount_usd now st₁
        { st₂ with purchases := st₂.purchases.set i (markApproved now row) }
    else if adminAction == "reject" then
      { st with purchases := st.purchases.set i (markRejected now row) }
    else st

section BalanceLemmas

theorem updateFirst_nil (p : α → Bool) (f : α → α) : updateFirst p f [] = [] := rfl

theorem updateFirst_cons (p : α → Bool) (f : α → α) (x : α) (xs : List α) :
    updateFirst p f (x :: xs) = if p x then f x :: xs else x :: updateFirst p f xs := rfl

theorem mem_updateFirst (p : α → Bool) (f : α → α) (users : List α)
    (u : α) (hu : u ∈ updateFirst p f users) :
    u ∈ users ∨ ∃ v ∈ users, u = f v := by
  induction users with
  | nil => simp [updateFirst_nil] at hu
  | cons x xs ih =>
    rw [updateFirst_cons] at hu
    by_cases hx : p x
    · rw [if_pos hx] at hu
      rcases List.mem_cons.mp hu with h | h
      · exact Or.inr ⟨x, List.mem_cons_self x xs, h⟩
      · exact Or.inl (List.mem_cons_of_mem x h)
    · rw [if_neg hx] at hu
      rcases List.mem_cons.mp hu with h | h
      · exact Or.inl (h ▸ List.mem_cons_self x xs)
      · rcases ih h with h' | ⟨v, hv, hveq⟩
        · exact Or.inl (List.mem_cons_of_mem x h')
        · exact Or.inr ⟨v, List.mem_cons_of_mem x hv, hveq⟩

theorem update_user_balance_nonneg (users : List UserRow) (tid : String)
    (amount : ℚ) (add : Bool) (h : ∀ u ∈ users, 0 ≤ u.wallet_balance) :
    ∀ u ∈ update_user_balance users tid amount add, 0 ≤ u.wallet_balance := by
  intro u hu
  rcases mem_updateFirst _ _ _ u hu with h' | ⟨v, hv, hveq⟩
  · exact h u h'
  · subst hveq
    exact le_max_left 0 _

theorem applyBalanceOps_nonneg (ops : List BalanceOp) :
    ∀ (users : List UserRow), (∀ u ∈ users, 0 ≤ u.wallet_balance) →
      ∀ u ∈ applyBalanceOps users ops, 0 ≤ u.wallet_balance := by
  induction ops with
  | nil => intro users h; simpa [applyBalanceOps] using h
  | cons op ops ih =>
    intro users h
    exact ih _ (update_user_balance_nonneg users op.tid op.amount op.add h)

theorem find?_updateFirst_eq (p : α → Bool) (f : α → α)
    (hp : ∀ u, p (f u) = p u) (users : List α) :
    (updateFirst p f users).find? p = (users.find? p).map f := by
  induction users with
  | nil => simp [updateFirst_nil]
  | cons x xs ih =>
    rw [updateFirst_cons]
    by_cases hx : p x
    · rw [if_pos hx]
      rw [List.find?_cons_of_pos _ (by rw [hp]; exact hx), List.find?_cons_of_pos _ hx]
      rfl
    · rw [if_neg hx]
      rw [List.find?_cons_of_neg _ hx, List.find?_cons_of_neg _ hx]
      exact ih

theorem balanceOf_debit (users : List UserRow) (tid : String) (amount : ℚ)
    (hfound : (users.find? (fun u => u.telegram_id == tid)).isSome) :
    balanceOf (update_user_balance users tid amount false) tid =
      max 0 (balanceOf users tid - amount) := by
  rcases Option.isSome_iff_exists.mp hfound with ⟨u, hu⟩
  unfold balanceOf update_user_balance
  rw [find?_updateFirst_eq (fun u => u.telegram_id == tid) (creditUser amount false)
        (fun u => rfl) users, hu]
  simp [creditUser]

end BalanceLemmas

/-- C6 -- For every user and every sequence of credit and debit operations
applied via `update_user_balance`, every stored wallet balance stays `≥ 0`
(provided all balances start `≥ 0`, as they do: users are created with
balance `"0"`), and a debit whose amount exceeds the current balance leaves a
stored balance of exactly `0`, never a negative value. -/
theorem wallet_balance_never_negative (users : List UserRow)
    (h0 : ∀ u ∈ users, 0 ≤ u.wallet_balance) :
    (∀ (ops : List BalanceOp), ∀ u ∈ applyBalanceOps users ops, 0 ≤ u.wallet_balance) ∧
    (∀ (tid : String) (amount : ℚ),
      (users.find? (fun u => u.telegram_id == tid)).isSome →
      balanceOf users tid < amount →
      balanceOf (update_user_balance users tid amount false) tid = 0) := by
  constructor
  · intro ops u hu
    exact applyBalanceOps_nonneg ops users h0 u hu
  · intro tid amount hfound hlt
    rw [balanceOf_debit users tid amount hfound]
    have : balanceOf users tid - amount ≤ 0 := by linarith
    exact max_eq_left this

/-- Witness for C6: a two-user table, a credit of 3 then an over-balance debit
of 5 on user "1"; all balances stay nonnegative and the over-debit stores
exactly 0. -/
theorem wallet_balance_never_negative_witness :
    (∀ u ∈ applyBalanceOps
        [⟨"1", "a", "", "", "R1", "", 2, "active", 0, 0, ""⟩,
         ⟨"2", "b", "", "", "R2", "", 0, "active", 0, 0, ""⟩]
        [⟨"1", 3, true⟩, ⟨"1", 5, false⟩], 0 ≤ u.wallet_balance) ∧
    balanceOf (update_user_balance
        [⟨"1", "a", "", "", "R1", "", 2, "active", 0, 0, ""⟩,
         ⟨"2", "b", "", "", "R2", "", 0, "active", 0, 0, ""⟩] "1" 5 false) "1" = 0 := by
  have h := wallet_balance_never_negative
      [⟨"1", "a", "", "", "R1", "", 2, "active", 0, 0, ""⟩,
       ⟨"2", "b", "", "", "R2", "", 0, "active", 0, 0, ""⟩]
      (by decide)
  exact ⟨h.1 [⟨"1", 3, true⟩, ⟨"1", 5, false⟩], h.2 "1" 5 (by decide) (by decide)⟩

section ActivateLemmas

theorem filter_updateFirst (p : α → Bool) (f : α → α)
    (hp : ∀ u, p (f u) = p u) (l : List α) :
    (updateFirst p f l).filter p =
      match l.filter p with
      | [] => []
      | x :: xs => f x :: xs := by
  induction l with
  | nil => simp [updateFirst_nil]
  | cons x xs ih =>
    by_cases hx : p x
    · rw [updateFirst_cons, if_pos hx]
      simp [List.filter_cons, hx, hp x]
    · rw [updateFirst_cons, if_neg hx]
      simp [List.filter_cons, hx, ih]

theorem subsFor_activate (cfg : Config) (now : Nat)
    (tid username product pm : String) (st : BotState) :
    subsFor tid (activate_subscription cfg now tid username product pm st).subs =
      match subsFor tid st.subs with
      | [] => [⟨tid, username, product, "active", now, now + subDuration, pm⟩]
      | x :: xs => activateSubRow now username product pm x :: xs := by
  unfold activate_subscription subsFor
  by_cases h : st.subs.any (fun r => r.telegram_id == tid)
  · simp only [h, if_true]
    rw [filter_updateFirst _ _ (fun r => by simp [activateSubRow])]
    cases hf : st.subs.filter (fun r => r.telegram_id == tid) with
    | nil =>
      exfalso
      rcases List.any_eq_true.mp h with ⟨r, hr, hpr⟩
      have hmem : r ∈ st.subs.filter (fun r => r.telegram_id == tid) :=
        List.mem_filter.mpr ⟨hr, hpr⟩
      rw [hf] at hmem
      simp at hmem
    | cons y ys => simp
  · have h' : st.subs.any (fun r => r.telegram_id == tid) = false :=
      Bool.not_eq_true _ ▸ eq_false_of_ne_true h
    simp only [h', Bool.false_eq_true, if_false]
    have hnil : st.subs.filter (fun r => r.telegram_id == tid) = [] := by
      rw [List.filter_eq_nil_iff]
      intro a ha
      exact (List.any_eq_false.mp h' a ha)
    rw [List.filter_append, hnil]
    simp

end ActivateLemmas

/-- C1 -- `activate_subscription` leaves exactly one `Subscriptions` row for
the user (given the table held at most one row for them, its lookup
discipline), with status `"active"` and `expires_at = now + 180 days`
regardless of product tier; an existing row (active or not) is overwritten in
place, so two successive activations still yield exactly one row whose
`expires_at` is the second call's value. -/
theorem activate_subscription_single_row (cfg : Config) (now₁ now₂ : Nat)
    (tid u₁ u₂ p₁ p₂ pm₁ pm₂ : String) (st : BotState)
    (hlen : (subsFor tid st.subs).length ≤ 1) :
    ((subsFor tid (activate_subscription cfg now₁ tid u₁ p₁ pm₁ st).subs).length = 1 ∧
      ∀ r ∈ subsFor tid (activate_subscription cfg now₁ tid u₁ p₁ pm₁ st).subs,
        r.status = "active" ∧ r.expires_at = now₁ + subDuration) ∧
    ((subsFor tid (activate_subscription cfg now₂ tid u₂ p₂ pm₂
        (activate_subscription cfg now₁ tid u₁ p₁ pm₁ st)).subs).length = 1 ∧
      ∀ r ∈ subsFor tid (activate_subscription cfg now₂ tid u₂ p₂ pm₂
          (activate_subscription cfg now₁ tid u₁ p₁ pm₁ st)).subs,
        r.status = "active" ∧ r.expires_at = now₂ + subDuration) := by
  have h₁ := subsFor_activate cfg now₁ tid u₁ p₁ pm₁ st
  have h₂ := subsFor_activate cfg now₂ tid u₂ p₂ pm₂
      (activate_subscription cfg now₁ tid u₁ p₁ pm₁ st)
  cases hf : subsFor tid st.subs with
  | nil =>
    rw [hf] at h₁
    rw [h₁] at h₂ ⊢
    refine ⟨⟨rfl, ?_⟩, ?_⟩
    · intro r hr
      simp at hr
      subst hr
      exact ⟨rfl, rfl⟩
    · rw [h₂]
      refine ⟨rfl, ?_⟩
      intro r hr
      simp at hr
      subst hr
      exact ⟨rfl, rfl⟩
  | cons x xs =>
    rw [hf] at h₁ hlen
    have hxs : xs = [] := by
      cases xs with
      | nil => rfl
      | cons y ys => simp [List.length_cons] at hlen
    subst hxs
    rw [h₁] at h₂ ⊢
    refine ⟨⟨rfl, ?_⟩, ?_⟩
    · intro r hr
      simp at hr
      subst hr
      exact ⟨rfl, rfl⟩
    · rw [h₂]
      refine ⟨rfl, ?_⟩
      intro r hr
      simp at hr
      subst hr
      exact ⟨rfl, rfl⟩

/-- Witness for C1: a user `"42"` with one pre-existing expired row, activated
twice at times 100 and 200. -/
theorem activate_subscription_single_row_witness :
    (subsFor "42"
      ({ users := [], subs := [⟨"42", "old", "normal", "expired", 0, 5, "card"⟩],
         purchases := [], referrals := [], withdrawals := [], discounts := [],
         gifts := [], expiryTimers := [], reminderTimers := [] } : BotState).subs).length ≤ 1 ∧
    ((subsFor "42" (activate_subscription ⟨5, 20, "nc", "pc"⟩ 100 "42" "u" "premium" "card"
        { users := [], subs := [⟨"42", "old", "normal", "expired", 0, 5, "card"⟩],
          purchases := [], referrals := [], withdrawals := [], discounts := [],
          gifts := [], expiryTimers := [], reminderTimers := [] }).subs).length = 1 ∧
      ∀ r ∈ subsFor "42" (activate_subscription ⟨5, 20, "nc", "pc"⟩ 100 "42" "u" "premium" "card"
          { users := [], subs := [⟨"42", "old", "normal", "expired", 0, 5, "card"⟩],
            purchases := [], referrals := [], withdrawals := [], discounts := [],
            gifts := [], expiryTimers := [], reminderTimers := [] }).subs,
        r.status = "active" ∧ r.expires_at = 100 + subDuration) :=
  ⟨by decide,
   (activate_subscription_single_row ⟨5, 20, "nc", "pc"⟩ 100 200 "42" "u" "u2"
      "premium" "normal" "card" "usdt"
      { users := [], subs := [⟨"42", "old", "normal", "expired", 0, 5, "card"⟩],
        purchases := [], referrals := [], withdrawals := [], discounts := [],
        gifts := [], expiryTimers := [], reminderTimers := [] } (by decide)).1⟩

/-- C8 counterexample -- the claim that a new activation cancels the
previously scheduled removal timer is false: starting from a state with one
scheduled removal timer for user `"42"` (from an earlier activation), a new
`activate_subscription` call leaves that stale timer in the task set (two
timers now exist, the old one among them); nothing in
`activate_subscription` or `schedule_expiry` stores or cancels tasks. -/
theorem stale_timer_not_cancelled_cex :
    ((activate_subscription ⟨5, 20, "nc", "pc"⟩ 200 "42" "u" "normal" "card"
      { users := [], subs := [⟨"42", "u", "normal", "active", 0, subDuration, "card"⟩],
        purchases := [], referrals := [], withdrawals := [], discounts := [],
        gifts := [], expiryTimers := [⟨"42", ["nc"], subDuration⟩],
        reminderTimers := [⟨"42", subDuration⟩] }).expiryTimers).length = 2 ∧
    (⟨"42", ["nc"], subDuration⟩ : ExpiryTimer) ∈
      (activate_subscription ⟨5, 20, "nc", "pc"⟩ 200 "42" "u" "normal" "card"
        { users := [], subs := [⟨"42", "u", "normal", "active", 0, subDuration, "card"⟩],
          purchases := [], referrals := [], withdrawals := [], discounts := [],
          gifts := [], expiryTimers := [⟨"42", ["nc"], subDuration⟩],
          reminderTimers := [⟨"42", subDuration⟩] }).expiryTimers := by
  constructor <;> decide

/-- C8 amended -- `activate_subscription` spawns a fresh removal timer with
`create_task` and appends it to the live task set without cancelling or
replacing any previously scheduled removal timer for that user: every
pre-existing timer, stale ones included, survives the new activation. -/
theorem activate_appends_timer_without_cancel (cfg : Config) (now : Nat)
    (tid username product pm : String) (st : BotState) :
    (activate_subscription cfg now tid username product pm st).expiryTimers =
      st.expiryTimers ++ [⟨tid, subsChannels cfg product, now + subDuration⟩] := rfl

section ReferralLemmas

theorem find?_updateFirst_of_disjoint (p q : α → Bool) (f : α → α)
    (hq : ∀ u, q (f u) = q u) (h : ∀ u, p u = true → q u = false) (l : List α) :
    (updateFirst p f l).find? q = l.find? q := by
  induction l with
  | nil => rfl
  | cons x xs ih =>
    rw [updateFirst_cons]
    by_cases hx : p x
    · rw [if_pos hx]
      have hqx : q x = false := h x hx
      rw [List.find?_cons_of_neg _ (by simp [hq x, hqx]),
          List.find?_cons_of_neg _ (by simp [hqx])]
    · rw [if_neg hx]
      by_cases hqx : q x
      · rw [List.find?_cons_of_pos _ hqx, List.find?_cons_of_pos _ hqx]
      · rw [List.find?_cons_of_neg _ hqx, List.find?_cons_of_neg _ hqx]
        exact ih

theorem get_user_boost_update_user_balance (users : List UserRow)
    (tid t : String) (amt : ℚ) (add : Bool) :
    get_user_boost (update_user_balance users tid amt add) t = get_user_boost users t := by
  unfold get_user_boost update_user_balance
  by_cases ht : t = tid
  · subst ht
    rw [find?_updateFirst_eq (fun u => u.telegram_id == t) (creditUser amt add)
        (fun u => rfl) users]
    cases users.find? (fun u => u.telegram_id == t) <;> rfl
  · rw [find?_updateFirst_of_disjoint (fun u => u.telegram_id == tid)
        (fun u => u.telegram_id == t) (creditUser amt add) (fun u => rfl) ?_ users]
    intro u hu
    rw [beq_iff_eq] at hu
    show (u.telegram_id == t) = false
    rw [hu]
    exact beq_eq_false_iff_ne.mpr (fun hc => ht hc.symm)

theorem level2Rate_update_user_balance (users : List UserRow)
    (tid t : String) (amt : ℚ) (add : Bool) :
    level2Rate (update_user_balance users tid amt add) t = level2Rate users t := by
  unfold level2Rate
  rw [get_user_boost_update_user_balance]

end ReferralLemmas

/-- C2 -- `process_referral_commission` appends 0, 1 or 2 `Referrals` ledger
rows: none when the buyer is unknown or their `referred_by` is empty; when a
referrer exists, first a level-1 row with commission `amount × 8%` (or the
referrer's active boost level-1 percentage); a level-2 row exists only when
the level-1 referrer's own `referred_by` is non-empty and differs from the
buyer, with commission `amount × 12%` (or that referrer's boost level-2
percentage); and the users table afterwards is exactly the input table with
each appended row's commission credited to that row's referrer. -/
theorem process_referral_commission_spec (pid buyer : String) (amount : ℚ)
    (now : Nat) (st : BotState) :
    ∃ app : List ReferralRow,
      (process_referral_commission pid buyer amount now st).referrals =
        st.referrals ++ app ∧
      app.length ≤ 2 ∧
      (process_referral_commission pid buyer amount now st).users =
        app.foldl (fun us r => update_user_balance us r.referrer_id r.commission_usd true)
          st.users ∧
      ((st.users.find? (fun u => u.telegram_id == buyer)).all
          (fun b => b.referred_by == "") = true → app = []) ∧
      (∀ b, st.users.find? (fun u => u.telegram_id == buyer) = some b →
        b.referred_by ≠ "" →
        ∃ rest, app = ⟨b.referred_by, buyer, 1,
            amount * level1Rate st.users b.referred_by, "paid", pid, now, now⟩ :: rest ∧
          rest.length ≤ 1) ∧
      (∀ r ∈ app, r.level = 2 →
        ∃ b rr, st.users.find? (fun u => u.telegram_id == buyer) = some b ∧
          st.users.find? (fun u => u.telegram_id == b.referred_by) = some rr ∧
          rr.referred_by ≠ "" ∧ rr.referred_by ≠ buyer ∧
          r = ⟨rr.referred_by, buyer, 2,
            amount * level2Rate st.users rr.referred_by, "paid", pid, now, now⟩) := by
  unfold process_referral_commission
  cases hb : st.users.find? (fun u => u.telegram_id == buyer) with
  | none =>
    refine ⟨[], by simp, by simp, rfl, fun _ => rfl, ?_, by simp⟩
    intro b hbb
    exact absurd hbb (by simp)
  | some buyerRow =>
    by_cases hrb : buyerRow.referred_by == ""
    · simp only [hrb, if_true]
      refine ⟨[], by simp, by simp, rfl, fun _ => rfl, ?_, by simp⟩
      intro b hbb hne
      cases hbb
      exact absurd (beq_iff_eq.mp hrb) hne
    · simp only [hrb, if_false, Bool.false_eq_true]
      have hf1 := find?_updateFirst_eq (fun u => u.telegram_id == buyerRow.referred_by)
        (creditUser (amount * level1Rate st.users buyerRow.referred_by) true)
        (fun u => rfl) st.users
      cases hrr : st.users.find? (fun u => u.telegram_id == buyerRow.referred_by) with
      | none =>
        rw [hrr] at hf1
        rw [show update_user_balance st.users buyerRow.referred_by
              (amount * level1Rate st.users buyerRow.referred_by) true =
            updateFirst (fun u => u.telegram_id == buyerRow.referred_by)
              (creditUser (amount * level1Rate st.users buyerRow.referred_by) true)
              st.users from rfl, hf1]
        refine ⟨[⟨buyerRow.referred_by, buyer, 1,
            amount * level1Rate st.users buyerRow.referred_by, "paid", pid, now, now⟩],
          rfl, by simp, rfl, ?_, ?_, ?_⟩
        · intro hall
          simp only [Option.all_some] at hall
          exact absurd hall hrb
        · intro b hbb _
          cases hbb
          exact ⟨[], rfl, by simp⟩
        · intro r hr hlev
          simp at hr
          subst hr
          simp at hlev
      | some rr =>
        rw [hrr] at hf1
        rw [show update_user_balance st.users buyerRow.referred_by
              (amount * level1Rate st.users buyerRow.referred_by) true =
            updateFirst (fun u => u.telegram_id == buyerRow.referred_by)
              (creditUser (amount * level1Rate st.users buyerRow.referred_by) true)
              st.users from rfl, hf1]
        simp only [Option.map_some']
        cases hguard : (rr.referred_by != "" && rr.referred_by != buyer) with
        | false =>
          have hcredit : (creditUser (amount * level1Rate st.users buyerRow.referred_by) true
              rr).referred_by = rr.referred_by := rfl
          simp only [hcredit, creditUser, hguard, Bool.false_eq_true, if_false]
          refine ⟨[⟨buyerRow.referred_by, buyer, 1,
              amount * level1Rate st.users buyerRow.referred_by, "paid", pid, now, now⟩],
            rfl, by simp, rfl, ?_, ?_, ?_⟩
          · intro hall
            simp only [Option.all_some] at hall
            exact absurd hall hrb
          · intro b hbb _
            cases hbb
            exact ⟨[], rfl, by simp⟩
          · intro r hr hlev
            simp at hr
            subst hr
            simp at hlev
        | true =>
          have hcredit : (creditUser (amount * level1Rate st.users buyerRow.referred_by) true
              rr).referred_by = rr.referred_by := rfl
          simp only [hcredit, creditUser, hguard, if_true]
          rw [Bool.and_eq_true] at hguard
          have hne1 : rr.referred_by ≠ "" := by
            have := hguard.1
            rw [bne_iff_ne] at this
            exact this
          have hne2 : rr.referred_by ≠ buyer := by
            have := hguard.2
            rw [bne_iff_ne] at this
            exact this
          refine ⟨[⟨buyerRow.referred_by, buyer, 1,
              amount * level1Rate st.users buyerRow.referred_by, "paid", pid, now, now⟩,
            ⟨rr.referred_by, buyer, 2,
              amount * level2Rate st.users rr.referred_by, "paid", pid, now, now⟩],
            ?_, by simp, ?_, ?_, ?_, ?_⟩
          · rw [show level2Rate (updateFirst (fun u => u.telegram_id == buyerRow.referred_by)
                  (creditUser (amount * level1Rate st.users buyerRow.referred_by) true) st.users)
                  rr.referred_by = level2Rate st.users rr.referred_by from
                level2Rate_update_user_balance st.users buyerRow.referred_by rr.referred_by _ true]
            simp
          · rw [show level2Rate (updateFirst (fun u => u.telegram_id == buyerRow.referred_by)
                  (creditUser (amount * level1Rate st.users buyerRow.referred_by) true) st.users)
                  rr.referred_by = level2Rate st.users rr.referred_by from
                level2Rate_update_user_balance st.users buyerRow.referred_by rr.referred_by _ true]
            rfl
          · intro hall
            simp only [Option.all_some] at hall
            exact absurd hall hrb
          · intro b hbb _
            cases hbb
            exact ⟨[⟨rr.referred_by, buyer, 2,
              amount * level2Rate st.users rr.referred_by, "paid", pid, now, now⟩],
              rfl, by simp⟩
          · intro r hr hlev
            simp only [List.mem_cons, List.mem_singleton] at hr
            rcases hr with hr | hr | hr
            · subst hr; simp at hlev
            · subst hr
              exact ⟨buyerRow, rr, rfl, hrr, hne1, hne2, rfl⟩
            · simp at hr

section PreservationLemmas

theorem activate_subscription_preserves (cfg : Config) (now : Nat)
    (tid username product pm : String) (st : BotState) :
    (activate_subscription cfg now tid username product pm st).purchases = st.purchases ∧
    (activate_subscription cfg now tid username product pm st).referrals = st.referrals ∧
    (activate_subscription cfg now tid username product pm st).discounts = st.discounts ∧
    (activate_subscription cfg now tid username product pm st).gifts = st.gifts ∧
    (activate_subscription cfg now tid username product pm st).withdrawals = st.withdrawals :=
  ⟨rfl, rfl, rfl, rfl, rfl⟩

theorem process_referral_commission_preserves (pid buyer : String) (amount : ℚ)
    (now : Nat) (st : BotState) :
    (process_referral_commission pid buyer amount now st).subs = st.subs ∧
    (process_referral_commission pid buyer amount now st).purchases = st.purchases ∧
    (process_referral_commission pid buyer amount now st).discounts = st.discounts ∧
    (process_referral_commission pid buyer amount now st).gifts = st.gifts ∧
    (process_referral_commission pid buyer amount now st).withdrawals = st.withdrawals ∧
    (process_referral_commission pid buyer amount now st).expiryTimers = st.expiryTimers := by
  unfold process_referral_commission
  dsimp only
  repeat' split
  all_goals exact ⟨rfl, rfl, rfl, rfl, rfl, rfl⟩

theorem callback_admin_purchase_discounts (cfg : Config)
    (action pid uid adminId : String) (now : Nat) (st : BotState) :
    (callback_admin_purchase cfg action pid uid adminId now st).discounts = st.discounts := by
  unfold callback_admin_purchase
  cases st.purchases.find? (fun r => r.purchase_id == pid) with
  | none => rfl
  | some row =>
    by_cases ha : (action == "approve")
    · simp only [ha, if_true]
      rw [(process_referral_commission_preserves _ _ _ _ _).2.2.1]
      rfl
    · simp only [ha, Bool.false_eq_true, if_false]

theorem poll_process_purchase_row_discounts (cfg : Config) (gc gm : String)
    (now : Nat) (i : Nat) (st : BotState) :
    (poll_process_purchase_row cfg gc gm now i st).discounts = st.discounts := by
  unfold poll_process_purchase_row
  cases st.purchases[i]? with
  | none => rfl
  | some row =>
    by_cases hskip : (pyToLower (pyTrim row.admin_action) == "" ||
        containsSub (pyToLower (pyTrim row.notes)) "processed")
    · simp only [hskip, if_true]
    · simp only [hskip, Bool.false_eq_true, if_false]
      by_cases htid : (pyNat row.telegram_id == 0)
      · simp only [htid, if_true]
      · simp only [htid, Bool.false_eq_true, if_false]
        by_cases happ : (pyToLower (pyTrim row.admin_action) == "approve")
        · simp only [happ, if_true]
          by_cases hgift : pyStartsWith row.product "gift_"
          · simp only [hgift, if_true]
          · simp only [hgift, Bool.false_eq_true, if_false]
            show (process_referral_commission _ _ _ _ _).discounts = st.discounts
            rw [(process_referral_commission_preserves _ _ _ _ _).2.2.1]
            rfl
        · simp only [happ, Bool.false_eq_true, if_false]
          by_cases hrej : (pyToLower (pyTrim row.admin_action) == "reject")
          · simp only [hrej, if_true]
          · simp only [hrej, Bool.false_eq_true, if_false]

end PreservationLemmas

/-- C3 counterexample -- the claim that a valid discount code's `used_count`
is incremented is false: user `"42"` holds validated code `SAVE10` (10%, 0 of
5 uses, valid, active) and selects card payment for a normal subscription at
time 50; the recorded purchase price is reduced to $4.50, but the
`DiscountCodes` table is returned bit-for-bit unchanged — `used_count` stays
0 (`use_discount_code` is never called by any handler). -/
theorem discount_counter_not_incremented_cex :
    (callback_payment_method ⟨5, 20, "nc", "pc"⟩ "42" "u" "card" "normal"
      (some "SAVE10") "P1" 100 50
      { users := [], subs := [], purchases := [], referrals := [], withdrawals := [],
        discounts := [⟨"SAVE10", 10, 5, 0, some 99999, "9", 0, "active"⟩],
        gifts := [], expiryTimers := [], reminderTimers := [] }).discounts =
      [⟨"SAVE10", 10, 5, 0, some 99999, "9", 0, "active"⟩] ∧
    (callback_payment_method ⟨5, 20, "nc", "pc"⟩ "42" "u" "card" "normal"
      (some "SAVE10") "P1" 100 50
      { users := [], subs := [], purchases := [], referrals := [], withdrawals := [],
        discounts := [⟨"SAVE10", 10, 5, 0, some 99999, "9", 0, "active"⟩],
        gifts := [], expiryTimers := [], reminderTimers := [] }).purchases.map
        (fun r => r.amount_usd) =
      [5 * (100 - ((10 : Int) : ℚ)) / 100] ∧
    (5 : ℚ) * (100 - ((10 : Int) : ℚ)) / 100 = 9 / 2 :=
  ⟨rfl, rfl, by norm_num⟩

/-- C3 amended -- when a user supplies a valid, unexpired, under-quota
discount code before checkout, the purchase price recorded at payment-method
selection is reduced by the code's percentage, but the code's `used_count` is
NOT incremented: the `DiscountCodes` table is left unchanged by the
payment-method handler (`use_discount_code` is defined but never invoked) and
equally untouched by both approval paths, so the counter is independent of
the approve/reject outcome only because it never moves at all. -/
theorem discount_applied_but_never_consumed (cfg : Config)
    (tid username method product code pidGen action pid uid adminId gc gm : String)
    (usdtRate : ℚ) (now now₂ now₃ : Nat) (i : Nat) (st st₂ st₃ : BotState) :
    (callback_payment_method cfg tid username method product (some code) pidGen
        usdtRate now st).discounts = st.discounts ∧
    (pyStartsWith product "gift_" = false →
      ∀ d idx, validate_discount_code now st.discounts code = some (d, idx) →
      (callback_payment_method cfg tid username method product (some code) pidGen
          usdtRate now st).purchases = st.purchases ∨
      ∃ row, (callback_payment_method cfg tid username method product (some code)
          pidGen usdtRate now st).purchases = st.purchases ++ [row] ∧
        row.amount_usd =
          (if product == "normal" then cfg.normalPrice else cfg.premiumPrice) *
            (100 - (d : ℚ)) / 100) ∧
    (callback_admin_purchase cfg action pid uid adminId now₂ st₂).discounts =
      st₂.discounts ∧
    (poll_process_purchase_row cfg gc gm now₃ i st₃).discounts = st₃.discounts := by
  refine ⟨?_, ?_, callback_admin_purchase_discounts cfg action pid uid adminId now₂ st₂,
    poll_process_purchase_row_discounts cfg gc gm now₃ i st₃⟩
  · unfold callback_payment_method
    by_cases hm : (method == "card")
    · simp only [hm, if_true]
    · simp only [hm, Bool.false_eq_true, if_false]
      by_cases hm2 : (method == "usdt")
      · simp only [hm2, if_true]
      · simp only [hm2, Bool.false_eq_true, if_false]
  · intro hng d idx hval
    unfold callback_payment_method
    simp only [hng, Bool.false_eq_true, if_false, hval]
    by_cases hm : (method == "card")
    · simp only [hm, if_true]
      exact Or.inr ⟨_, rfl, rfl⟩
    · simp only [hm, Bool.false_eq_true, if_false]
      by_cases hm2 : (method == "usdt")
      · simp only [hm2, if_true]
        exact Or.inr ⟨_, rfl, rfl⟩
      · simp only [hm2, Bool.false_eq_true, if_false]
        exact Or.inl trivial

/-- C9 counterexample -- the claim that a transient spreadsheet API error is
retried with exponential backoff inside the adapter is false: with an
outcome oracle whose first attempt fails and every later attempt succeeds
(exactly the transient-error scenario a retry loop exists for), all three
adapter operations return their failure signal immediately — no second
attempt is ever consulted. -/
theorem adapter_no_retry_cex :
    append_row (fun k => decide (1 ≤ k)) = false ∧
    update_row (fun k => decide (1 ≤ k)) = false ∧
    get_all_rows (fun k => if 1 ≤ k then some [["row"]] else none) = [] :=
  ⟨rfl, rfl, rfl⟩

/-- C9 amended -- each tabular-store adapter operation makes exactly one
spreadsheet API attempt inside `try/except`, with no retry or backoff: its
result depends only on the first attempt's outcome, and when that attempt
raises, the operation returns its failure signal to the caller (`False` for
`append_row`/`update_row`, `[]` for `get_all_rows`) instead of letting the
exception escape the adapter. -/
theorem adapter_single_attempt_failure_signal :
    (∀ o q : Nat → Bool, o 0 = q 0 → append_row o = append_row q) ∧
    (∀ o q : Nat → Bool, o 0 = q 0 → update_row o = update_row q) ∧
    (∀ o q : Nat → Option (List (List String)), o 0 = q 0 →
      get_all_rows o = get_all_rows q) ∧
    (∀ o : Nat → Bool, o 0 = false → append_row o = false) ∧
    (∀ o : Nat → Bool, o 0 = false → update_row o = false) ∧
    (∀ o : Nat → Option (List (List String)), o 0 = none → get_all_rows o = []) :=
  ⟨fun _ _ h => h, fun _ _ h => h,
   fun o q h => by unfold get_all_rows; rw [h],
   fun _ h => h, fun _ h => h,
   fun o h => by unfold get_all_rows; rw [h]; rfl⟩

/-- C7 -- a withdrawal request appends a pending `Withdrawals` row only when
the parsed amount is at least the $10 minimum and at most the wallet balance
at request time; the request itself never touches the users table, and the
balance is debited by the requested amount only in
`process_withdrawal_approval`, when an admin marks the withdrawal completed
(the debit clamps at 0 per `update_user_balance`). -/
theorem withdrawal_request_authorization (tid method destination widGen : String)
    (amountParse : Option ℚ) (now : Nat) (st : BotState) :
    (handle_withdrawal_request tid method (balanceOf st.users tid) amountParse
        destination widGen now st).users = st.users ∧
    ((handle_withdrawal_request tid method (balanceOf st.users tid) amountParse
        destination widGen now st).withdrawals = st.withdrawals ∨
      ∃ amount, amountParse = some amount ∧ 10 ≤ amount ∧
        amount ≤ balanceOf st.users tid ∧
        ∃ w, (handle_withdrawal_request tid method (balanceOf st.users tid)
            amountParse destination widGen now st).withdrawals =
          st.withdrawals ++ [w] ∧ w.status = "pending" ∧ w.amount_usd = amount ∧
          w.telegram_id = tid) ∧
    (∀ (uid txid : String) (amount₂ : ℚ) (widIdx : Nat) (st₂ : BotState),
      2 ≤ widIdx → widIdx ≤ st₂.withdrawals.length →
      (st₂.users.find? (fun u => u.telegram_id == uid)).isSome →
      balanceOf (process_withdrawal_approval uid amount₂ txid widIdx now st₂).users uid =
        max 0 (balanceOf st₂.users uid - amount₂)) := by
  refine ⟨?_, ?_, ?_⟩
  · unfold handle_withdrawal_request
    cases amountParse with
    | none => rfl
    | some amount =>
      by_cases h1 : amount < 10
      · simp only [h1, if_true]
      · simp only [h1, if_false]
        by_cases h2 : amount > balanceOf st.users tid
        · simp only [h2, if_true]
        · simp only [h2, if_false]
          by_cases h3 : (method == "usdt" &&
              !(pyStartsWith destination "0x" && destination.length ≥ 20))
          · simp only [h3, if_true]
          · simp only [h3, Bool.false_eq_true, if_false]
            by_cases h4 : (method == "card")
            · simp only [h4, if_true]
            · simp only [h4, Bool.false_eq_true, if_false]
  · unfold handle_withdrawal_request
    cases amountParse with
    | none => exact Or.inl rfl
    | some amount =>
      by_cases h1 : amount < 10
      · simp only [h1, if_true]
        exact Or.inl trivial
      · simp only [h1, if_false]
        by_cases h2 : amount > balanceOf st.users tid
        · simp only [h2, if_true]
          exact Or.inl trivial
        · simp only [h2, if_false]
          by_cases h3 : (method == "usdt" &&
              !(pyStartsWith destination "0x" && destination.length ≥ 20))
          · simp only [h3, if_true]
            exact Or.inl trivial
          · simp only [h3, Bool.false_eq_true, if_false]
            by_cases h4 : (method == "card")
            · simp only [h4, if_true]
              exact Or.inr ⟨amount, rfl, not_lt.mp h1, not_lt.mp h2,
                ⟨widGen, tid, amount, "card", "", destination, "pending", now, "", "", ""⟩,
                rfl, rfl, rfl, rfl⟩
            · simp only [h4, Bool.false_eq_true, if_false]
              exact Or.inr ⟨amount, rfl, not_lt.mp h1, not_lt.mp h2,
                ⟨widGen, tid, amount, "usdt", destination, "", "pending", now, "", "", ""⟩,
                rfl, rfl, rfl, rfl⟩
  · intro uid txid amount₂ widIdx st₂ hge hle hfound
    unfold process_withdrawal_approval
    have hguard : ¬(st₂.withdrawals.length + 1 ≤ widIdx) := by omega
    rw [if_neg hguard]
    have hidx : widIdx - 2 < st₂.withdrawals.length := by omega
    obtain ⟨w, hw⟩ : ∃ w, st₂.withdrawals[widIdx - 2]? = some w :=
      ⟨st₂.withdrawals[widIdx - 2], List.getElem?_eq_getElem hidx⟩
    rw [hw]
    exact balanceOf_debit st₂.users uid amount₂ hfound

/-- C10 -- `redeem_gift_card` returns `None` and leaves the state (the
matching `GiftCards` row included) unchanged whenever the first matching
card's status is not `"pending"` or the recipient is the card's own buyer;
consequently a successful redemption (which marks the row `"redeemed"`)
makes every later redemption of that code return `None`, so a gift card is
redeemed at most once and never by the user who bought it. -/
theorem redeem_gift_card_at_most_once (code : String) (rid rid₂ : Nat)
    (ru ru₂ : String) (now now₂ : Nat) (st : BotState) :
    (∀ g, st.gifts.find? (fun x => x.gift_code == code) = some g →
      (g.status ≠ "pending" ∨ g.buyer_id = rid) →
      redeem_gift_card code rid ru now st = (none, st)) ∧
    ((redeem_gift_card code rid ru now st).1.isSome →
      (redeem_gift_card code rid₂ ru₂ now₂ (redeem_gift_card code rid ru now st).2).1 =
        none) := by
  constructor
  · intro g hg hrefuse
    unfold redeem_gift_card
    rw [hg]
    by_cases hs : (g.status != "pending")
    · simp only [hs, if_true]
    · simp only [hs, Bool.false_eq_true, if_false]
      have hs' : g.status = "pending" := by
        by_contra hc
        exact hs (bne_iff_ne.mpr hc)
      rcases hrefuse with h | h
      · exact absurd hs' h
      · have hb : (g.buyer_id == rid) = true := beq_iff_eq.mpr h
        simp only [hb, if_true]
  · intro hsome
    unfold redeem_gift_card at hsome ⊢
    cases hg : st.gifts.find? (fun x => x.gift_code == code) with
    | none => rw [hg] at hsome; simp at hsome
    | some g =>
      rw [hg] at hsome
      dsimp only at hsome ⊢
      by_cases hs : (g.status != "pending")
      · rw [if_pos hs] at hsome; simp at hsome
      · rw [if_neg hs] at hsome ⊢
        by_cases hb : (g.buyer_id == rid)
        · rw [if_pos hb] at hsome; simp at hsome
        · rw [if_neg hb] at hsome ⊢
          dsimp only
          have hfind : (updateFirst (fun x => x.gift_code == code)
              (redeemUpdate rid ru now) st.gifts).find? (fun x => x.gift_code == code) =
              some (redeemUpdate rid ru now g) := by
            rw [find?_updateFirst_eq (fun x => x.gift_code == code)
                (redeemUpdate rid ru now) (fun x => rfl) st.gifts, hg]
            rfl
          rw [hfind]
          dsimp only
          have hpend : ((redeemUpdate rid ru now g).status != "pending") = true := by
            rw [bne_iff_ne]
            intro hc
            exact absurd hc (by simp [redeemUpdate])
          rw [if_pos hpend]

section PollLemmas

theorem poll_step_skip (cfg : Config) (gc gm : String) (now i : Nat)
    (st : BotState) (row : PurchaseRow) (hrow : st.purchases[i]? = some row)
    (h : (pyToLower (pyTrim row.admin_action) == "" ||
          containsSub (pyToLower (pyTrim row.notes)) "processed") = true) :
    poll_process_purchase_row cfg gc gm now i st = st := by
  unfold poll_process_purchase_row
  rw [hrow]
  dsimp only
  rw [if_pos h]

theorem getElem_lt_of_getElem?_eq_some {l : List α} {i : Nat} {a : α}
    (h : l[i]? = some a) : i < l.length := by
  by_contra hc
  push_neg at hc
  rw [List.getElem?_eq_none hc] at h
  cases h

theorem poll_step_cases (cfg : Config) (gc gm : String) (now i : Nat)
    (st : BotState) :
    poll_process_purchase_row cfg gc gm now i st = st ∨
    ∃ row, st.purchases[i]? = some row ∧
      ((poll_process_purchase_row cfg gc gm now i st).purchases[i]? =
          some (markApproved now row) ∨
        (poll_process_purchase_row cfg gc gm now i st).purchases[i]? =
          some (markRejected now row)) := by
  cases hrow : st.purchases[i]? with
  | none =>
    left
    unfold poll_process_purchase_row
    rw [hrow]
  | some row =>
    have hi : i < st.purchases.length := getElem_lt_of_getElem?_eq_some hrow
    by_cases hskip : (pyToLower (pyTrim row.admin_action) == "" ||
        containsSub (pyToLower (pyTrim row.notes)) "processed") = true
    · exact Or.inl (poll_step_skip cfg gc gm now i st row hrow hskip)
    · by_cases htid : (pyNat row.telegram_id == 0) = true
      · left
        unfold poll_process_purchase_row
        rw [hrow]
        dsimp only
        rw [if_neg hskip, if_pos htid]
      · by_cases happ : (pyToLower (pyTrim row.admin_action) == "approve") = true
        · by_cases hgift : pyStartsWith row.product "gift_" = true
          · right
            refine ⟨row, rfl, Or.inl ?_⟩
            unfold poll_process_purchase_row
            rw [hrow]
            dsimp only
            rw [if_neg hskip, if_neg htid, if_pos happ, if_pos hgift]
            exact List.getElem?_set_eq_of_lt _ hi
          · right
            refine ⟨row, rfl, Or.inl ?_⟩
            unfold poll_process_purchase_row
            rw [hrow]
            dsimp only
            rw [if_neg hskip, if_neg htid, if_pos happ, if_neg hgift]
            show ((process_referral_commission row.purchase_id row.telegram_id
                row.amount_usd now (activate_subscription cfg now row.telegram_id
                  row.username row.product row.payment_method st)).purchases.set i
                (markApproved now row))[i]? = some (markApproved now row)
            rw [(process_referral_commission_preserves _ _ _ _ _).2.1]
            exact List.getElem?_set_eq_of_lt _ (by exact hi)
        · by_cases hrej : (pyToLower (pyTrim row.admin_action) == "reject") = true
          · right
            refine ⟨row, rfl, Or.inr ?_⟩
            unfold poll_process_purchase_row
            rw [hrow]
            dsimp only
            rw [if_neg hskip, if_neg htid, if_neg happ, if_pos hrej]
            exact List.getElem?_set_eq_of_lt _ hi
          · left
            unfold poll_process_purchase_row
            rw [hrow]
            dsimp only
            rw [if_neg hskip, if_neg htid, if_neg happ, if_neg hrej]

end PollLemmas

/-- C5 counterexample -- the claim that no admin approval path performs the
approve side effects for a purchase that has already left the pending state
is false: purchase `P1` is already `status = "approved"` with the
`auto_processed` notes marker (i.e. fully processed by the reconciliation
poller), yet a click of the inline approve control runs the commission path
again, appending a fresh level-1 ledger row for `P1` crediting referrer
`"7"`. -/
theorem approved_purchase_recredited_cex :
    (callback_admin_purchase ⟨5, 20, "nc", "pc"⟩ "approve" "P1" "42" "9" 100
      { users := [⟨"42", "u", "", "", "R", "7", 0, "active", 0, 0, ""⟩,
                  ⟨"7", "r", "", "", "S", "", 0, "active", 0, 0, ""⟩],
        subs := [], purchases := [⟨"P1", "42", "u", "normal", 5, 0, "card", "",
          "", "approved", "t0", "t1", "9", "auto_processed"⟩],
        referrals := [], withdrawals := [], discounts := [], gifts := [],
        expiryTimers := [], reminderTimers := [] }).referrals.length = 1 ∧
    ∃ r, (callback_admin_purchase ⟨5, 20, "nc", "pc"⟩ "approve" "P1" "42" "9" 100
      { users := [⟨"42", "u", "", "", "R", "7", 0, "active", 0, 0, ""⟩,
                  ⟨"7", "r", "", "", "S", "", 0, "active", 0, 0, ""⟩],
        subs := [], purchases := [⟨"P1", "42", "u", "normal", 5, 0, "card", "",
          "", "approved", "t0", "t1", "9", "auto_processed"⟩],
        referrals := [], withdrawals := [], discounts := [], gifts := [],
        expiryTimers := [], reminderTimers := [] }).referrals = [r] ∧
      r.level = 1 ∧ r.referrer_id = "7" ∧ r.referred_id = "42" ∧
      r.purchase_id = "P1" :=
  ⟨rfl, ⟨_, rfl, rfl, rfl, rfl, rfl⟩⟩

/-- C5 amended -- the reconciliation pass is at-most-once: it skips any row
whose lowercased notes contain the processed marker (or whose
`admin_action` cell is empty), and one reconciliation step is idempotent —
a row it approves or rejects is overwritten with an empty `admin_action`
and the `auto_processed` notes marker, so a second pass never re-runs the
activation or commission side effects.  The inline approve control, by
contrast, checks nothing about the purchase's current state (see the
counterexample). -/
theorem poll_reconciliation_at_most_once (cfg : Config) (gc gm : String)
    (now : Nat) (i : Nat) (st : BotState) :
    (∀ row, st.purchases[i]? = some row →
      (pyToLower (pyTrim row.admin_action) = "" ∨
        containsSub (pyToLower (pyTrim row.notes)) "processed" = true) →
      poll_process_purchase_row cfg gc gm now i st = st) ∧
    poll_process_purchase_row cfg gc gm now i
        (poll_process_purchase_row cfg gc gm now i st) =
      poll_process_purchase_row cfg gc gm now i st := by
  constructor
  · intro row hrow hskip
    refine poll_step_skip cfg gc gm now i st row hrow ?_
    rcases hskip with h | h
    · rw [h]
      simp
    · rw [h]
      simp
  · rcases poll_step_cases cfg gc gm now i st with h | ⟨row, _, hmark | hmark⟩
    · rw [h, h]
    · refine poll_step_skip cfg gc gm now i
        (poll_process_purchase_row cfg gc gm now i st) (markApproved now row)
        hmark ?_
      have h0 : pyToLower (pyTrim "") = "" := rfl
      simp [markApproved, h0]
    · refine poll_step_skip cfg gc gm now i
        (poll_process_purchase_row cfg gc gm now i st) (markRejected now row)
        hmark ?_
      have h0 : pyToLower (pyTrim "") = "" := rfl
      simp [markRejected, h0]

/-- C4 counterexample -- the claim that an inline admin approval of a
`gift_` purchase mints a `GiftCards` row and does not activate a
subscription for the buyer is false: approving the usdt gift purchase `P1`
(product `gift_normal`) through the inline control leaves the `GiftCards`
table empty and creates an active subscription row for the buyer with the
raw product string `"gift_normal"`. -/
theorem gift_inline_approval_no_giftcard_cex :
    (callback_admin_purchase ⟨5, 20, "nc", "pc"⟩ "approve" "P1" "42" "9" 100
      { users := [⟨"42", "u", "", "", "R", "", 0, "active", 0, 0, ""⟩],
        subs := [], purchases := [⟨"P1", "42", "u", "gift_normal", 5, 0, "usdt",
          "", "pending", isoOf 10, "", "", "", ""⟩],
        referrals := [], withdrawals := [], discounts := [], gifts := [],
        expiryTimers := [], reminderTimers := [] }).gifts = [] ∧
    (subsFor "42" (callback_admin_purchase ⟨5, 20, "nc", "pc"⟩ "approve" "P1" "42" "9" 100
      { users := [⟨"42", "u", "", "", "R", "", 0, "active", 0, 0, ""⟩],
        subs := [], purchases := [⟨"P1", "42", "u", "gift_normal", 5, 0, "usdt",
          "", "pending", isoOf 10, "", "", "", ""⟩],
        referrals := [], withdrawals := [], discounts := [], gifts := [],
        expiryTimers := [], reminderTimers := [] }).subs).length = 1 ∧
    ∀ r ∈ (callback_admin_purchase ⟨5, 20, "nc", "pc"⟩ "approve" "P1" "42" "9" 100
      { users := [⟨"42", "u", "", "", "R", "", 0, "active", 0, 0, ""⟩],
        subs := [], purchases := [⟨"P1", "42", "u", "gift_normal", 5, 0, "usdt",
          "", "pending", isoOf 10, "", "", "", ""⟩],
        referrals := [], withdrawals := [], discounts := [], gifts := [],
        expiryTimers := [], reminderTimers := [] }).subs,
      r.subscription_type = "gift_normal" ∧ r.status = "active" := by
  refine ⟨rfl, rfl, ?_⟩
  intro r hr
  have hsubs : (callback_admin_purchase ⟨5, 20, "nc", "pc"⟩ "approve" "P1" "42" "9" 100
      { users := [⟨"42", "u", "", "", "R", "", 0, "active", 0, 0, ""⟩],
        subs := [], purchases := [⟨"P1", "42", "u", "gift_normal", 5, 0, "usdt",
          "", "pending", isoOf 10, "", "", "", ""⟩],
        referrals := [], withdrawals := [], discounts := [], gifts := [],
        expiryTimers := [], reminderTimers := [] }).subs =
      [⟨"42", "u", "gift_normal", "active", 100, 100 + subDuration, "usdt"⟩] := rfl
  rw [hsubs] at hr
  simp only [List.mem_singleton] at hr
  subst hr
  exact ⟨rfl, rfl⟩

theorem subsFor_activate_length_pos (cfg : Config) (now : Nat)
    (tid username product pm : String) (st : BotState) :
    1 ≤ (subsFor tid (activate_subscription cfg now tid username product pm st).subs).length := by
  rw [subsFor_activate]
  cases subsFor tid st.subs <;> simp

/-- C4 amended -- only the reconciliation poller's `admin_action` path
special-cases gift purchases: for a flagged, unprocessed `gift_` row it
appends a pending `GiftCards` row (buyer, gift code, de-prefixed product,
tier price) and leaves the `Subscriptions` table untouched; the inline
approve control instead runs the ordinary activation path — it mints no
`GiftCards` row and leaves the buyer with an (at least one) subscription
row via `activate_subscription` called on the raw `gift_`-prefixed
product. -/
theorem gift_approval_paths (cfg : Config) (gc gm : String) (now now₂ : Nat)
    (i : Nat) (st st₂ : BotState) (pid uid adminId : String) :
    (∀ row, st.purchases[i]? = some row →
      pyToLower (pyTrim row.admin_action) = "approve" →
      containsSub (pyToLower (pyTrim row.notes)) "processed" = false →
      pyNat row.telegram_id ≠ 0 →
      pyStartsWith row.product "gift_" = true →
      (poll_process_purchase_row cfg gc gm now i st).gifts =
        st.gifts ++ [⟨gc, pyReplace row.product "gift_" "",
          (if pyReplace row.product "gift_" "" == "normal" then cfg.normalPrice
           else cfg.premiumPrice), pyNat row.telegram_id, row.username, none, "",
          gm, "pending", now, none⟩] ∧
      (poll_process_purchase_row cfg gc gm now i st).subs = st.subs) ∧
    (∀ row, st₂.purchases.find? (fun r => r.purchase_id == pid) = some row →
      (callback_admin_purchase cfg "approve" pid uid adminId now₂ st₂).gifts =
        st₂.gifts ∧
      1 ≤ (subsFor uid
        (callback_admin_purchase cfg "approve" pid uid adminId now₂ st₂).subs).length) := by
  constructor
  · intro row hrow ha hnp htid hgift
    unfold poll_process_purchase_row
    rw [hrow]
    dsimp only
    rw [ha, hnp]
    rw [if_neg (by decide), if_neg (by simp [beq_eq_false_iff_ne.mpr htid]),
        if_pos (by decide), if_pos hgift]
    exact ⟨rfl, rfl⟩
  · intro row hfind
    unfold callback_admin_purchase
    rw [hfind]
    dsimp only
    rw [if_pos (by decide)]
    constructor
    · rw [(process_referral_commission_preserves _ _ _ _ _).2.2.2.1]
      rfl
    · rw [(process_referral_commission_preserves _ _ _ _ _).1]
      exact subsFor_activate_length_pos cfg now₂ uid _ row.product
        row.payment_method _

end TelegramSubBot
